import Mathlib

/-!
Verification of the vidstream-server session-orchestration layer.

The definitions below are a shallow embedding of the JavaScript source:

* `src/utils/functions.js` — `generateRandomString`, `startStream`, `killStream`;
* `src/unnamed/part_000` — the main Bun server: websocket message handler
  (subscribe, `start`, `keepAlive`, `message` commands) and the keep-alive
  reaper interval;
* `src/unnamed/part_002` — `getBestQuality` (orientation-aware variant);
* `src/unnamed/part_003` — `RegexCheck.username`;
* `src/unnamed/part_004` — the `resolutions` table;
* `src/app.js` (second historical variant) — the alternative `start` handler
  that reassigns `client.host`.

JavaScript machine integers are modelled as `Nat` (timestamps, pixel counts
and byte values are non-negative and far below 2^53, where JS number
arithmetic is exact).  JS `undefined`/`null` optionality is modelled with
`Option`, and JS falsiness of strings ("" and undefined are falsy) with
explicit helpers.  Runtime exceptions (TypeError on property access of
`undefined`, `ERR_INVALID_ARG_TYPE` from `fs` calls with a `null` path) are
modelled with `Except`.
-/

namespace VidStream

/-- Runtime errors the embedded code can raise. -/
inductive JsError where
  /-- TypeError: reading a property of `undefined`. -/
  | typeErrorUndefined : JsError
  /-- `ERR_INVALID_ARG_TYPE`: an `fs` call received `null` instead of a path. -/
  | invalidArgType : JsError
deriving Repr, DecidableEq

/-- JS falsiness of an optional string: `undefined`/`null` and `""` are falsy. -/
def jsFalsy : Option String → Bool
  | none => true
  | some s => s == ""

/-- A spawned ffmpeg child process (`Bun.spawn` result), identified by pid. -/
structure Proc where
  pid : Nat
  killed : Bool
deriving Repr, DecidableEq

/-- Value passed as the first argument of `killStream`.  The call sites pass
either the id string, or (in the buggy reaper call) the value of
`global.ffmpegProcesses.get(id)`, which is a process object or `undefined`. -/
inductive JsKey where
  | str (s : String) : JsKey
  | proc (p : Proc) : JsKey
  | undefKey : JsKey
deriving Repr, DecidableEq

/-- Lifecycle state of a stream: the string field `state` takes only the
values `"stopped"` and `"started"` in the source. -/
inductive StreamState where
  | stopped : StreamState
  | started : StreamState
deriving Repr, DecidableEq

/-- A session-registry entry (`global.streams` value, created by the upload
handler in `src/unnamed/part_000`). -/
structure Stream where
  id : String
  token : String
  state : StreamState
  width : Nat
  height : Nat
  fps : Nat
  bitrate : String
  directory : String
  video : String
  keepAlive : Nat
  timestamp : Nat
deriving Repr, DecidableEq

/-- A viewer-connection entry (`websocketClients` value in part_000). -/
structure Client where
  username : String
  ip : String
  country : Option String
  stream : String
  host : Bool
deriving Repr, DecidableEq

/-- The mutable server state: `global.streams`, `global.ffmpegProcesses`,
`websocketClients` (keyed by an abstract connection id), the set of
directories existing on disk, a pid counter for `Bun.spawn`, and the pids
that have received SIGKILL. -/
structure ServerState where
  streams : List (String × Stream)
  ffmpegProcesses : List (String × Proc)
  websocketClients : List (Nat × Client)
  fsDirs : List String
  nextPid : Nat
  killedPids : List Nat
deriving Repr, DecidableEq

/-- JS `Map.set`: replace in place if the key is present, else append. -/
def mapSet [BEq κ] (k : κ) (v : α) : List (κ × α) → List (κ × α)
  | [] => [(k, v)]
  | (k', v') :: rest => if k' == k then (k, v) :: rest else (k', v') :: mapSet k v rest

/-- JS `Map.delete`. -/
def mapDelete [BEq κ] (k : κ) (l : List (κ × α)) : List (κ × α) :=
  l.filter (fun p => !(p.1 == k))

/-- JS `Map.has`. -/
def mapHas [BEq κ] (k : κ) (l : List (κ × α)) : Bool :=
  (l.lookup k).isSome

/-! ## `generateRandomString` (src/utils/functions.js lines 49-60)

`randomBytes(length)` is modelled by an arbitrary byte function
`bytes : Nat → Nat`; the source indexes `charset` with `bytes[i] % 62`. -/

/-- Character set used by `generateRandomString`. -/
def charset : String :=
  "ABCDEFGHIJKLMNOPQRSTUVWXYZabcdefghijklmnopqrstuvwxyz0123456789"

/-- Embedding of `generateRandomString`: builds the string character by
character, picking `charset[bytes[i] % charset.length]`. -/
def generateRandomString (bytes : Nat → Nat) (length : Nat) : String :=
  ⟨(List.range length).map (fun i => charset.data.getD (bytes i % charset.length) ' ')⟩

/-! ## `resolutions` table (src/unnamed/part_004) and `getBestQuality`
(src/unnamed/part_002 lines 150-168) -/

/-- `resolutions["8k"]`. -/
def resolutions8k : Nat := 7680 * 4320
/-- `resolutions["4k"]`. -/
def resolutions4k : Nat := 3840 * 2160
/-- `resolutions["1440p"]`. -/
def resolutions1440p : Nat := 2560 * 1440
/-- `resolutions["1080p"]`. -/
def resolutions1080p : Nat := 1920 * 1080
/-- `resolutions["720p"]`. -/
def resolutions720p : Nat := 1280 * 720

/-- A `{ width, height }` pair as returned by `getBestQuality`. -/
structure Quality where
  width : Nat
  height : Nat
deriving Repr, DecidableEq

/-- Embedding of `getBestQuality` from part_002: swaps a portrait input to
landscape, picks the largest tier allowed by `maxResolution` that the source
covers, and swaps back for portrait sources. -/
def getBestQuality (maxResolution : Nat) (width height : Nat) : Quality :=
  let isPortrait := width < height
  let w := if isPortrait then height else width
  let h := if isPortrait then width else height
  let resolution : Quality :=
    if resolutions8k ≤ maxResolution ∧ 7680 ≤ w ∧ 4320 ≤ h then ⟨7680, 4320⟩
    else if resolutions4k ≤ maxResolution ∧ 3840 ≤ w ∧ 2160 ≤ h then ⟨3840, 2160⟩
    else if resolutions1440p ≤ maxResolution ∧ 2560 ≤ w ∧ 1440 ≤ h then ⟨2560, 1440⟩
    else if resolutions1080p ≤ maxResolution ∧ 1920 ≤ w ∧ 1080 ≤ h then ⟨1920, 1080⟩
    else ⟨1280, 720⟩
  if isPortrait then ⟨resolution.height, resolution.width⟩ else resolution

/-- The five fixed quality tiers, in source order. -/
def qualityTiers : List Quality :=
  [⟨7680, 4320⟩, ⟨3840, 2160⟩, ⟨2560, 1440⟩, ⟨1920, 1080⟩, ⟨1280, 720⟩]

/-! ## `RegexCheck.username` (src/unnamed/part_003)

The regex is `^[\p{L}\p{N} .\-@_]{3,20}$` with the `u` flag: between 3 and 20
code points, each a Unicode letter, a Unicode number, a space, or one of
`.`, `-`, `@`, `_`.  The Unicode general categories `\p{L}` and `\p{N}` are
not computable here, so they are passed in as classification functions
`isL`/`isN`; everything else is embedded literally. -/

namespace RegexCheck

/-- Embedding of `RegexCheck.username`: the anchored character-class regex
with the `{3,20}` code-point quantifier. -/
def username (isL isN : Char → Bool) (u : String) : Bool :=
  decide (3 ≤ u.length) && decide (u.length ≤ 20) &&
    u.data.all (fun c =>
      isL c || isN c || c == ' ' || c == '.' || c == '-' || c == '@' || c == '_')

end RegexCheck

/-- Username rejection logic of the subscribe path (part_000 lines 222-235),
restricted to a supplied username string: `if (!data.username)` rejects the
falsy empty string, then `if (!await RegexCheck.username(...))` rejects a
regex failure. -/
def usernameRejected (isL isN : Char → Bool) (u : String) : Bool :=
  if u == "" then true else !(RegexCheck.username isL isN u)

/-- The username format stated by the specification: only Unicode letters,
Unicode digits, spaces, and the characters `.`, `-`, `_`, `@`, with total
length at least 3 and at most 20. -/
def specUsernameOk (isL isN : Char → Bool) (u : String) : Prop :=
  3 ≤ u.length ∧ u.length ≤ 20 ∧
    ∀ c ∈ u.data, isL c = true ∨ isN c = true ∨ c = ' ' ∨ c = '.' ∨ c = '-' ∨
      c = '@' ∨ c = '_'

/-! ## `startStream` and `killStream` (src/utils/functions.js lines 130-218)

`startStream` creates the working directory, spawns the transcoder and
registers the process handle under the stream id.  (The asynchronous exit
callbacks run only when the external process exits and are outside the
operations treated here.)

`killStream(id, streamPath)` kills and removes the process registered under
`id`, defaults `streamPath` from the registry, and then runs

    if (exists(streamPath)) await rmdir(streamPath, { recursive: true, force: true });

`exists` is `async` and the call is not awaited: the condition is a Promise
object, which is always truthy, so the `rmdir` runs unconditionally.  With a
`null` path, `rmdir` raises `ERR_INVALID_ARG_TYPE`; with a string path and
`recursive`/`force`, it removes the directory and tolerates its absence. -/

/-- Embedding of `startStream`: `mkdir(directory, { recursive: true })`, then
`Bun.spawn` (a fresh pid), then `global.ffmpegProcesses.set(id, ffmpeg)`. -/
def startStream (stream : Stream) (st : ServerState) : ServerState :=
  let st1 := { st with
    fsDirs := if stream.directory ∈ st.fsDirs then st.fsDirs
              else st.fsDirs ++ [stream.directory] }
  let ffmpeg : Proc := { pid := st1.nextPid, killed := false }
  { st1 with
    nextPid := st1.nextPid + 1,
    ffmpegProcesses := mapSet stream.id ffmpeg st1.ffmpegProcesses }

/-- Lookup in the process table with a `JsKey`: the table's keys are always
strings, so a process-object or `undefined` key is never found (JS `Map`
compares keys with SameValueZero). -/
def procTableHas (k : JsKey) (l : List (String × Proc)) : Bool :=
  match k with
  | .str s => mapHas s l
  | _ => false

/-- Lookup in the stream registry with a `JsKey`; same remark as
`procTableHas`. -/
def streamTableGet (k : JsKey) (l : List (String × Stream)) : Option Stream :=
  match k with
  | .str s => l.lookup s
  | _ => none

/-- First statement of `killStream`: `if (global.ffmpegProcesses.has(id))`,
kill the process with SIGKILL and delete it from the table. -/
def killProcPhase (id : JsKey) (st : ServerState) : ServerState :=
  match id with
  | .str s =>
    match st.ffmpegProcesses.lookup s with
    | some ffmpeg =>
      { st with
        killedPids := st.killedPids ++ [ffmpeg.pid],
        ffmpegProcesses := mapDelete s st.ffmpegProcesses }
    | none => st
  | _ => st

/-- Second statement of `killStream`:
`if (!streamPath && global.streams.has(id)) streamPath = stream.directory`. -/
def defaultPath (id : JsKey) (streamPath : Option String)
    (streams : List (String × Stream)) : Option String :=
  if jsFalsy streamPath then
    match streamTableGet id streams with
    | some stream => some stream.directory
    | none => streamPath
  else streamPath

/-- Embedding of `killStream`.  The first parameter is named `id` in the
source but receives a non-string value at the reaper call site, hence the
`JsKey` type.  `streamPath = none` models a `null`/omitted path.  The guard
`if (exists(streamPath))` calls the `async` helper without `await`, so the
condition is a Promise object and always truthy: the `rmdir` runs
unconditionally, and with a `null` path it raises `ERR_INVALID_ARG_TYPE`. -/
def killStream (id : JsKey) (streamPath : Option String) (st : ServerState) :
    Except JsError ServerState :=
  let st1 := killProcPhase id st
  match defaultPath id streamPath st1.streams with
  | none => .error .invalidArgType
  | some q =>
    let st2 := { st1 with fsDirs := st1.fsDirs.filter (fun d => !(d == q)) }
    match id with
    | .str s =>
      .ok (if mapHas s st2.streams then { st2 with streams := mapDelete s st2.streams }
           else st2)
    | _ => .ok st2

/-! ## Protocol dispatcher (src/unnamed/part_000 lines 196-323)

A parsed inbound message and the server's responses.  `JSON.stringify` drops
fields whose value is `undefined`, so optional fields are `Option`s. -/

/-- A successfully parsed client message (`data` after `JSON.parse`). -/
structure ClientMsg where
  type : Option String
  stream : Option String
  username : Option String
  token : Option String
  message : Option String
deriving Repr, DecidableEq

/-- A raw websocket frame: either unparseable JSON or a parsed message. -/
inductive RawMsg where
  | malformed : RawMsg
  | parsed (data : ClientMsg) : RawMsg
deriving Repr, DecidableEq

/-- A response object passed to `ws.send` (after `JSON.stringify`). -/
structure WsResponse where
  success : Bool
  type : Option String
  cause : Option String
  message : Option String
deriving Repr, DecidableEq

/-- A chat payload passed to `server.publish` for the `message` command. -/
structure ChatBroadcast where
  success : Bool
  type : Option String
  username : String
  host : Bool
  country : Option String
  message : String
deriving Repr, DecidableEq

/-- A status payload published by the reaper interval. -/
structure InfoMsg where
  stream : String
  state : StreamState
  viewers : Nat
deriving Repr, DecidableEq

/-- Observable effects of one invocation of the websocket message handler. -/
structure WsEffect where
  sent : List WsResponse
  published : List (String × ChatBroadcast)
  closed : Bool
deriving Repr, DecidableEq

/-- Failure response carrying an echoed type and a cause. -/
def failResp (t : Option String) (cause : String) : WsResponse :=
  { success := false, type := t, cause := some cause, message := none }

/-- Success response carrying an echoed type and a message. -/
def okResp (t : Option String) (message : String) : WsResponse :=
  { success := true, type := t, cause := none, message := some message }

/-- Loose JS equality `streamToken == data.token` where `data.token` may be
`undefined`: a string never equals `undefined`. -/
def jsLooseEqTok (streamToken : String) (token : Option String) : Bool :=
  match token with
  | some t => streamToken == t
  | none => false

/-- Embedding of the `case "start"` branch (part_000 lines 271-285): rejects
when the stream is already started or a process handle exists, rejects a
non-host, and otherwise spawns via `startStream`, sets the state to started
and touches the keep-alive. -/
def handleStart (now : Nat) (t : Option String) (client : Client) (stream : Stream)
    (st : ServerState) : ServerState × WsResponse :=
  if stream.state = .started ∨ mapHas client.stream st.ffmpegProcesses then
    (st, failResp t "This stream has already started!")
  else if !client.host then
    (st, failResp t "You\x27re not the host!")
  else
    let st1 := startStream stream st
    let stream1 := { stream with state := .started, keepAlive := now }
    ({ st1 with streams := mapSet client.stream stream1 st1.streams },
     okResp t "Stream started!")

/-- Embedding of the `case "keepAlive"` branch (part_000 lines 286-294). -/
def handleKeepAlive (now : Nat) (t : Option String) (client : Client) (stream : Stream)
    (st : ServerState) : ServerState × WsResponse :=
  if stream.state ≠ .started ∨ !(mapHas client.stream st.ffmpegProcesses) then
    (st, failResp t "This stream hasn\x27t even started yet!")
  else
    let stream1 := { stream with keepAlive := now }
    ({ st with streams := mapSet client.stream stream1 st.streams },
     okResp t "Keep alive registered!")

/-- Embedding of the `case "message"` branch (part_000 lines 295-310): an
empty or absent body is rejected; otherwise the keep-alive is touched and a
chat event is published to the session's subscription group (no direct reply
is sent on success). -/
def handleChat (now : Nat) (t : Option String) (body : Option String) (client : Client)
    (stream : Stream) (st : ServerState) :
    ServerState × Option WsResponse × Option (String × ChatBroadcast) :=
  if jsFalsy body then
    (st, some (failResp t "No message!"), none)
  else
    let stream1 := { stream with keepAlive := now }
    ({ st with streams := mapSet client.stream stream1 st.streams },
     none,
     some (client.stream,
       { success := true, type := t, username := client.username,
         host := client.host, country := client.country,
         message := body.getD "" }))

/-- Embedding of the whole websocket `message` handler of part_000.  The
country lookup (`fetch` to ipapi.co) is asynchronous and best-effort; its
result is passed in as `country`.  The Unicode classes of the username regex
are passed in as `isL`/`isN`.  In the catch branch of `JSON.parse`, the
handler evaluates `data.type` although `data` was never assigned, which
raises a TypeError. -/
def wsMessage (isL isN : Char → Bool) (now : Nat) (country : Option String)
    (wsId : Nat) (ip : String) (raw : RawMsg) (st : ServerState) :
    Except JsError (ServerState × WsEffect) :=
  match raw with
  | .malformed => .error .typeErrorUndefined
  | .parsed data =>
    -- Check if a stream ID has been supplied
    if jsFalsy data.stream then
      .ok (st, { sent := [failResp data.type "No stream supplied!"],
                 published := [], closed := true })
    else
    match data.stream with
    | none =>
      .ok (st, { sent := [failResp data.type "No stream supplied!"],
                 published := [], closed := true })
    | some sid =>
      -- Check if the client is even in the object
      if !(mapHas wsId st.websocketClients) then
        if !(mapHas sid st.streams) then
          .ok (st, { sent := [failResp data.type
                       ("Stream " ++ sid ++ " doesn\x27t exist!")],
                     published := [], closed := true })
        else if jsFalsy data.username then
          .ok (st, { sent := [failResp data.type "No username supplied!"],
                     published := [], closed := true })
        else if !(RegexCheck.username isL isN (data.username.getD "")) then
          .ok (st, { sent := [failResp data.type
                       ("Only alphabetical characters, numbers, spaces and the characters \x27.-_@\x27 are allowed in a username (minimum 3 characters, maximum 20 characters)!")],
                     published := [], closed := true })
        else
          match st.streams.lookup sid with
          | none =>
            .ok (st, { sent := [failResp data.type
                         ("Stream " ++ sid ++ " doesn\x27t exist!")],
                       published := [], closed := true })
          | some strm =>
            let client : Client :=
              { username := data.username.getD "", ip := ip, country := country,
                stream := sid, host := jsLooseEqTok strm.token data.token }
            .ok ({ st with websocketClients := mapSet wsId client st.websocketClients },
                 { sent := [okResp data.type ("Now watching stream " ++ sid ++ "!")],
                   published := [], closed := false })
      else
        match st.websocketClients.lookup wsId with
        | none =>
          .ok (st, { sent := [], published := [], closed := false })
        | some client =>
          -- Check if the stream has ended
          if !(mapHas client.stream st.streams) then
            .ok (st, { sent := [failResp data.type ("Stream " ++ sid ++ " ended!")],
                       published := [], closed := true })
          else
            match st.streams.lookup client.stream with
            | none =>
              .ok (st, { sent := [], published := [], closed := false })
            | some stream =>
              match data.type with
              | some "start" =>
                let (st1, resp) := handleStart now data.type client stream st
                .ok (st1, { sent := [resp], published := [], closed := false })
              | some "keepAlive" =>
                let (st1, resp) := handleKeepAlive now data.type client stream st
                .ok (st1, { sent := [resp], published := [], closed := false })
              | some "message" =>
                let (st1, resp, bc) := handleChat now data.type data.message client stream st
                .ok (st1, { sent := resp.toList, published := bc.toList, closed := false })
              | _ =>
                .ok (st, { sent := [failResp data.type "This type doesn\x27t exist!"],
                           published := [], closed := false })

/-- Embedding of the `start` handler of the second historical variant in
`src/app.js` (lines 492-504): identical checks, but the success branch
additionally executes `client.host = true; websocketClients.set(ws, client)`.
Responses in that variant carry no `type` field. -/
def handleStartV2 (now : Nat) (wsId : Nat) (client : Client) (stream : Stream)
    (st : ServerState) : ServerState × WsResponse :=
  if stream.state = .started ∨ mapHas client.stream st.ffmpegProcesses then
    (st, failResp none "This stream has already started!")
  else if !client.host then
    (st, failResp none "You\x27re not the host!")
  else
    let st1 := startStream stream st
    let client1 := { client with host := true }
    let st2 := { st1 with websocketClients := mapSet wsId client1 st1.websocketClients }
    let stream1 := { stream with state := .started, keepAlive := now }
    ({ st2 with streams := mapSet client.stream stream1 st2.streams },
     { success := true, type := none, cause := none, message := some "Stream started!" })

/-! ## Keep-alive reaper (src/unnamed/part_000 lines 345-369)

For each registry entry: count the viewers subscribed to it; if
`now - keepAlive > MAX_KEEP_ALIVE`, call
`killStream(global.ffmpegProcesses.get(id), stream.directory)` — note that
the first argument is the process handle (or `undefined`), not the id —
and then publish an info snapshot when viewers are watching. -/

/-- The value of `global.ffmpegProcesses.get(id)` as a `JsKey`: the process
object when present, `undefined` otherwise. -/
def procKey (id : String) (st : ServerState) : JsKey :=
  match st.ffmpegProcesses.lookup id with
  | some p => .proc p
  | none => .undefKey

/-- One iteration of the reaper loop over the snapshot of registry entries. -/
def reaperLoop (now maxKeepAlive : Nat) :
    List (String × Stream) → ServerState → List InfoMsg →
    Except JsError (ServerState × List InfoMsg)
  | [], st, infos => .ok (st, infos)
  | (id, stream) :: rest, st, infos =>
    let viewers := (st.websocketClients.filter (fun c => c.2.stream == id)).length
    let step : Except JsError ServerState :=
      if maxKeepAlive < now - stream.keepAlive then
        killStream (procKey id st) (some stream.directory) st
      else .ok st
    match step with
    | .error e => .error e
    | .ok st1 =>
      let infos1 :=
        if 0 < viewers then
          infos ++ [{ stream := id, state := stream.state, viewers := viewers }]
        else infos
      reaperLoop now maxKeepAlive rest st1 infos1

/-- Embedding of the reaper interval body: one sweep over all sessions. -/
def reaperSweep (now maxKeepAlive : Nat) (st : ServerState) :
    Except JsError (ServerState × List InfoMsg) :=
  reaperLoop now maxKeepAlive st.streams st []

/-! ## Helper lemmas -/

theorem lookup_mapSet_self [BEq κ] [LawfulBEq κ] (k : κ) (v : α) (l : List (κ × α)) :
    (mapSet k v l).lookup k = some v := by
  induction l with
  | nil => simp [mapSet, List.lookup]
  | cons p rest ih =>
    obtain ⟨k', v'⟩ := p
    by_cases h : k' = k
    · subst h
      simp [mapSet, List.lookup]
    · have h1 : (k' == k) = false := beq_eq_false_iff_ne.mpr h
      have h2 : (k == k') = false := beq_eq_false_iff_ne.mpr (Ne.symm h)
      simp [mapSet, h1, List.lookup, h2, ih]

theorem mapHas_mapSet_self [BEq κ] [LawfulBEq κ] (k : κ) (v : α) (l : List (κ × α)) :
    mapHas k (mapSet k v l) = true := by
  simp [mapHas, lookup_mapSet_self]

theorem killProcPhase_clients (id : JsKey) (st : ServerState) :
    (killProcPhase id st).websocketClients = st.websocketClients := by
  unfold killProcPhase
  repeat' split
  all_goals rfl

theorem killStream_ok_clients {id : JsKey} {p : Option String} {st st' : ServerState}
    (h : killStream id p st = .ok st') : st'.websocketClients = st.websocketClients := by
  unfold killStream at h
  dsimp only at h
  repeat' split at h
  all_goals simp at h
  all_goals (subst h; exact killProcPhase_clients _ st)

theorem reaperLoop_clients (now maxKA : Nat) (entries : List (String × Stream)) :
    ∀ (st : ServerState) (infos : List InfoMsg) (st' : ServerState)
      (infos' : List InfoMsg),
      reaperLoop now maxKA entries st infos = .ok (st', infos') →
      st'.websocketClients = st.websocketClients := by
  induction entries with
  | nil =>
    intro st infos st' infos' h
    simp only [reaperLoop] at h
    injection h with h
    rw [← (Prod.mk.injEq .. |>.mp h).1]
  | cons e rest ih =>
    intro st infos st' infos' h
    obtain ⟨id, stream⟩ := e
    simp only [reaperLoop] at h
    by_cases hc : maxKA < now - stream.keepAlive
    · rw [if_pos hc] at h
      cases hk : killStream (procKey id st) (some stream.directory) st with
      | error e => rw [hk] at h; simp at h
      | ok st1 =>
        rw [hk] at h
        simp only [] at h
        exact (ih st1 _ st' infos' h).trans (killStream_ok_clients hk)
    · rw [if_neg hc] at h
      simp only [] at h
      exact ih st _ st' infos' h

/-! ## Concrete fixtures for witnesses and evaluations -/

/-- A sample stopped session. -/
def sampleStream : Stream :=
  { id := "s1", token := "tok1", state := .stopped, width := 1280, height := 720,
    fps := 30, bitrate := "5000k", directory := "streams/s1",
    video := "streams/s1/video.mp4", keepAlive := 100, timestamp := 100 }

/-- A sample host viewer subscribed to `sampleStream`. -/
def sampleClient : Client :=
  { username := "alice", ip := "1.2.3.4", country := some "FR", stream := "s1",
    host := true }

/-- A server state holding `sampleStream` (not yet started) and `sampleClient`. -/
def sampleState : ServerState :=
  { streams := [("s1", sampleStream)],
    ffmpegProcesses := [],
    websocketClients := [(1, sampleClient)],
    fsDirs := ["streams/s1"],
    nextPid := 0,
    killedPids := [] }

/-- The sample session once started. -/
def sampleStartedStream : Stream := { sampleStream with state := .started }

/-- A server state where the sample session is started with a live process. -/
def sampleStartedState : ServerState :=
  { streams := [("s1", sampleStartedStream)],
    ffmpegProcesses := [("s1", { pid := 3, killed := false })],
    websocketClients := [(1, sampleClient)],
    fsDirs := ["streams/s1"],
    nextPid := 4,
    killedPids := [] }

/-- C5: a supplied username is rejected at subscription time exactly when it
does not consist of 3 to 20 characters drawn from Unicode letters, Unicode
digits, spaces and `.`, `-`, `_`, `@`; strings of that format pass the
username check. -/
theorem username_format_iff (isL isN : Char → Bool) (u : String) :
    (RegexCheck.username isL isN u = true ↔ specUsernameOk isL isN u)
    ∧ (usernameRejected isL isN u = true ↔ ¬ specUsernameOk isL isN u) := by
  have hmain : RegexCheck.username isL isN u = true ↔ specUsernameOk isL isN u := by
    unfold RegexCheck.username specUsernameOk
    simp only [Bool.and_eq_true, decide_eq_true_eq, List.all_eq_true, Bool.or_eq_true,
      beq_iff_eq, and_assoc, or_assoc]
  refine ⟨hmain, ?_⟩
  by_cases hu : u = ""
  · subst hu
    exact ⟨fun _ hspec => absurd hspec.1 (by decide), fun _ => rfl⟩
  · have hne : (u == "") = false := by simpa using hu
    simp [usernameRejected, hne, ← hmain]

/-- C9: for any byte source and any length `n`, `generateRandomString`
returns exactly `n` characters, all drawn from the 62-character set of ASCII
uppercase letters, lowercase letters and digits; in particular the stream id
(length 32) and the host token (length 16) have exactly those lengths. -/
theorem generateRandomString_spec (bytes : Nat → Nat) (n : Nat) :
    (generateRandomString bytes n).length = n
    ∧ charset.length = 62
    ∧ (∀ c ∈ (generateRandomString bytes n).data, c ∈ charset.data)
    ∧ (generateRandomString bytes 32).length = 32
    ∧ (generateRandomString bytes 16).length = 16 := by
  have hlen : ∀ m, (generateRandomString bytes m).length = m := by
    intro m
    show ((List.range m).map _).length = m
    rw [List.length_map, List.length_range]
  refine ⟨hlen n, by decide, ?_, hlen 32, hlen 16⟩
  intro c hc
  simp only [generateRandomString, List.mem_map, List.mem_range] at hc
  obtain ⟨i, -, rfl⟩ := hc
  have hlt : bytes i % charset.length < charset.data.length := by
    have h62 : charset.length = 62 := by decide
    have h62' : charset.data.length = 62 := by decide
    rw [h62, h62']
    exact Nat.mod_lt _ (by decide)
  rw [List.getD_eq_getElem _ _ hlt]
  exact List.getElem_mem _

/-- C10: `getBestQuality` preserves orientation (portrait in, portrait out;
landscape or square in, landscape or square out), always returns one of the
five fixed tiers (possibly with swapped dimensions), and its pixel count is
capped by the configured maximum resolution (every configurable value of
which is at least the 720p tier). -/
theorem getBestQuality_spec (maxRes width height : Nat)
    (hmax : resolutions720p ≤ maxRes) :
    ((width < height →
        (getBestQuality maxRes width height).width <
          (getBestQuality maxRes width height).height)
      ∧ (height ≤ width →
        (getBestQuality maxRes width height).height ≤
          (getBestQuality maxRes width height).width))
    ∧ (getBestQuality maxRes width height ∈ qualityTiers
       ∨ (⟨(getBestQuality maxRes width height).height,
           (getBestQuality maxRes width height).width⟩ : Quality) ∈ qualityTiers)
    ∧ (getBestQuality maxRes width height).width *
        (getBestQuality maxRes width height).height ≤ maxRes := by
  unfold getBestQuality
  simp only [resolutions8k, resolutions4k, resolutions1440p, resolutions1080p,
    resolutions720p] at hmax ⊢
  split_ifs <;>
    refine ⟨⟨fun hlt => ?_, fun hge => ?_⟩, by decide, ?_⟩ <;>
    dsimp only <;> omega

/-- C10 witness: the theorem applied at a 4k-capped configuration and a
portrait 1080p source. -/
theorem getBestQuality_spec_witness :
    resolutions720p ≤ 3840 * 2160
    ∧ ((1080 < 1920 →
        (getBestQuality (3840 * 2160) 1080 1920).width <
          (getBestQuality (3840 * 2160) 1080 1920).height)
      ∧ (1920 ≤ 1080 →
        (getBestQuality (3840 * 2160) 1080 1920).height ≤
          (getBestQuality (3840 * 2160) 1080 1920).width))
    ∧ (getBestQuality (3840 * 2160) 1080 1920 ∈ qualityTiers
       ∨ (⟨(getBestQuality (3840 * 2160) 1080 1920).height,
           (getBestQuality (3840 * 2160) 1080 1920).width⟩ : Quality) ∈ qualityTiers)
    ∧ (getBestQuality (3840 * 2160) 1080 1920).width *
        (getBestQuality (3840 * 2160) 1080 1920).height ≤ 3840 * 2160 :=
  ⟨by decide, getBestQuality_spec (3840 * 2160) 1080 1920 (by decide)⟩

/-- C2: for a subscribed connection, `start` fails with no state change and
no spawn when the session is already started or a process handle exists;
fails with no state change when the connection is not host; and otherwise
spawns the transcoder (a fresh process handle appears under the session id),
sets the session state to started, sets its keep-alive to the current time
and replies with success. -/
theorem start_command_spec (now : Nat) (t : Option String) (client : Client)
    (stream : Stream) (st : ServerState) (hid : stream.id = client.stream) :
    ((stream.state = .started ∨ mapHas client.stream st.ffmpegProcesses = true) →
        (handleStart now t client stream st).2.success = false
        ∧ (handleStart now t client stream st).1 = st)
    ∧ (stream.state = .stopped → mapHas client.stream st.ffmpegProcesses = false →
        client.host = false →
        (handleStart now t client stream st).2.success = false
        ∧ (handleStart now t client stream st).1 = st)
    ∧ (stream.state = .stopped → mapHas client.stream st.ffmpegProcesses = false →
        client.host = true →
        (handleStart now t client stream st).2.success = true
        ∧ (handleStart now t client stream st).1.streams.lookup client.stream
            = some { stream with state := .started, keepAlive := now }
        ∧ mapHas client.stream (handleStart now t client stream st).1.ffmpegProcesses
            = true
        ∧ (handleStart now t client stream st).1.nextPid = st.nextPid + 1) := by
  refine ⟨?_, ?_, ?_⟩
  · intro hcond
    unfold handleStart
    rw [if_pos hcond]
    exact ⟨rfl, rfl⟩
  · intro h1 h2 h3
    unfold handleStart
    rw [if_neg (by simp [h1, h2]), if_pos (by simp [h3])]
    exact ⟨rfl, rfl⟩
  · intro h1 h2 h3
    unfold handleStart
    rw [if_neg (by simp [h1, h2]), if_neg (by simp [h3])]
    refine ⟨rfl, lookup_mapSet_self .., ?_, rfl⟩
    show mapHas client.stream (mapSet stream.id _ st.ffmpegProcesses) = true
    rw [hid]
    exact mapHas_mapSet_self ..

/-- C2 witness: the success branch of `start` evaluated on the sample state. -/
theorem start_command_spec_witness :
    sampleStream.id = sampleClient.stream
    ∧ ((handleStart 200 (some "start") sampleClient sampleStream sampleState).2.success
        = true
      ∧ (handleStart 200 (some "start") sampleClient sampleStream
          sampleState).1.streams.lookup sampleClient.stream
          = some { sampleStream with state := .started, keepAlive := 200 }
      ∧ mapHas sampleClient.stream (handleStart 200 (some "start") sampleClient
          sampleStream sampleState).1.ffmpegProcesses = true
      ∧ (handleStart 200 (some "start") sampleClient sampleStream
          sampleState).1.nextPid = sampleState.nextPid + 1) :=
  ⟨rfl, (start_command_spec 200 (some "start") sampleClient sampleStream sampleState
      rfl).2.2 rfl rfl rfl⟩

/-- C6: each of the three keep-alive-touching operations (`start`,
`keepAlive`, chat `message`) leaves the session present in the registry and
never decreases its `keepAlive`: assuming the current time is at least the
stored `keepAlive` (it was itself read from the clock earlier), the stored
value after the operation is at least the value before. -/
theorem keepAlive_monotone (now : Nat) (t body : Option String) (client : Client)
    (stream : Stream) (st : ServerState)
    (hmono : stream.keepAlive ≤ now)
    (hlk : st.streams.lookup client.stream = some stream) :
    (((handleStart now t client stream st).1.streams.lookup client.stream).isSome
        = true
      ∧ ∀ s1, (handleStart now t client stream st).1.streams.lookup client.stream
          = some s1 → stream.keepAlive ≤ s1.keepAlive)
    ∧ (((handleKeepAlive now t client stream st).1.streams.lookup client.stream).isSome
        = true
      ∧ ∀ s2, (handleKeepAlive now t client stream st).1.streams.lookup client.stream
          = some s2 → stream.keepAlive ≤ s2.keepAlive)
    ∧ (((handleChat now t body client stream st).1.streams.lookup client.stream).isSome
        = true
      ∧ ∀ s3, (handleChat now t body client stream st).1.streams.lookup client.stream
          = some s3 → stream.keepAlive ≤ s3.keepAlive) := by
  have hfailSome : (st.streams.lookup client.stream).isSome = true := by
    rw [hlk]; rfl
  have hfail : ∀ s', st.streams.lookup client.stream = some s' →
      stream.keepAlive ≤ s'.keepAlive := by
    intro s' h
    rw [hlk] at h
    injection h with h
    subst h
    exact le_refl _
  have hsetSome : ∀ (v : Stream) (l : List (String × Stream)),
      ((mapSet client.stream v l).lookup client.stream).isSome = true := by
    intro v l
    rw [lookup_mapSet_self]
    rfl
  have hset : ∀ (v : Stream) (l : List (String × Stream)) (s' : Stream),
      (mapSet client.stream v l).lookup client.stream = some s' → s' = v := by
    intro v l s' h
    rw [lookup_mapSet_self] at h
    injection h with h
    exact h.symm
  refine ⟨?_, ?_, ?_⟩
  · unfold handleStart
    split_ifs with h1 h2
    · exact ⟨hfailSome, hfail⟩
    · exact ⟨hfailSome, hfail⟩
    · refine ⟨hsetSome _ _, fun s1 h => ?_⟩
      have hs := hset _ _ s1 h
      subst hs
      exact hmono
  · unfold handleKeepAlive
    split_ifs with h1
    · exact ⟨hfailSome, hfail⟩
    · refine ⟨hsetSome _ _, fun s2 h => ?_⟩
      have hs := hset _ _ s2 h
      subst hs
      exact hmono
  · unfold handleChat
    split_ifs with h1
    · exact ⟨hfailSome, hfail⟩
    · refine ⟨hsetSome _ _, fun s3 h => ?_⟩
      have hs := hset _ _ s3 h
      subst hs
      exact hmono

/-- C6 witness: the `keepAlive` command on the started sample state, at time
200 with stored keep-alive 100. -/
theorem keepAlive_monotone_witness :
    sampleStartedStream.keepAlive ≤ 200
    ∧ sampleStartedState.streams.lookup sampleClient.stream
        = some sampleStartedStream
    ∧ sampleStartedStream.keepAlive
        ≤ ({ sampleStartedStream with keepAlive := 200 } : Stream).keepAlive :=
  ⟨by decide, rfl,
    (keepAlive_monotone 200 (some "keepAlive") (some "hi") sampleClient
        sampleStartedStream sampleStartedState (by decide) rfl).2.1.2
      { sampleStartedStream with keepAlive := 200 } (by decide)⟩

/-- C7: a chat `message` with an empty or absent body fails with a failure
response, no broadcast and no state change; a non-empty body touches the
session's keep-alive and publishes a chat event with the sender's username,
host flag, country and the body to the session's subscription group (and the
registry, process table and client table are otherwise untouched). -/
theorem chat_message_spec (now : Nat) (t body : Option String) (client : Client)
    (stream : Stream) (st : ServerState) :
    (jsFalsy body = true →
       handleChat now t body client stream st
         = (st, some (failResp t "No message!"), none))
    ∧ (∀ m, body = some m → m ≠ "" →
       (handleChat now t body client stream st).2.1 = none
       ∧ (handleChat now t body client stream st).2.2
           = some (client.stream,
               { success := true, type := t, username := client.username,
                 host := client.host, country := client.country, message := m })
       ∧ (handleChat now t body client stream st).1.streams.lookup client.stream
           = some { stream with keepAlive := now }
       ∧ (handleChat now t body client stream st).1.websocketClients
           = st.websocketClients
       ∧ (handleChat now t body client stream st).1.ffmpegProcesses
           = st.ffmpegProcesses) := by
  constructor
  · intro hf
    unfold handleChat
    rw [if_pos hf]
  · intro m hm hne
    subst hm
    have hf : jsFalsy (some m) = false := by
      simp [jsFalsy, hne]
    unfold handleChat
    rw [hf, if_neg (by simp)]
    exact ⟨rfl, rfl, lookup_mapSet_self .., rfl, rfl⟩

/-- C7 witness: an empty body fails and the body `"hi"` is broadcast, on the
started sample state. -/
theorem chat_message_spec_witness :
    (jsFalsy (some "") = true →
      handleChat 200 (some "message") (some "") sampleClient sampleStartedStream
          sampleStartedState
        = (sampleStartedState, some (failResp (some "message") "No message!"), none))
    ∧ (handleChat 200 (some "message") (some "hi") sampleClient sampleStartedStream
          sampleStartedState).2.2
        = some ("s1",
            { success := true, type := some "message", username := "alice",
              host := true, country := some "FR", message := "hi" }) :=
  ⟨fun h => (chat_message_spec 200 (some "message") (some "") sampleClient
      sampleStartedStream sampleStartedState).1 h,
   ((chat_message_spec 200 (some "message") (some "hi") sampleClient
      sampleStartedStream sampleStartedState).2 "hi" rfl (by decide)).2.1⟩

/-- C3: the host flag is computed once, at subscribe time, as the loose JS
equality of the supplied token with the session token (true exactly when a
token was supplied and equals the stored one — this is the value the
subscribe path of `wsMessage` stores), and no later operation changes any
stored client: `start`, `keepAlive` and chat leave the client table
untouched, a reaper sweep leaves the client table untouched, and even the
historical `start` variant that reassigns `client.host = true` does so only
in a branch where the flag is already true, so the looked-up flag equals the
flag from subscribe time. -/
theorem host_flag_fixed (stok : String) (tok : Option String) (now : Nat)
    (t body : Option String) (client : Client) (stream : Stream)
    (st : ServerState) (maxKA : Nat) (st2 : ServerState) (infos : List InfoMsg)
    (wsId : Nat)
    (hreap : reaperSweep now maxKA st = .ok (st2, infos))
    (hcl : st.websocketClients.lookup wsId = some client) :
    (jsLooseEqTok stok tok = true ↔ tok = some stok)
    ∧ (handleStart now t client stream st).1.websocketClients
        = st.websocketClients
    ∧ (handleKeepAlive now t client stream st).1.websocketClients
        = st.websocketClients
    ∧ (handleChat now t body client stream st).1.websocketClients
        = st.websocketClients
    ∧ st2.websocketClients = st.websocketClients
    ∧ (∀ c, (handleStartV2 now wsId client stream st).1.websocketClients.lookup wsId
          = some c → c.host = client.host) := by
  refine ⟨?_, ?_, ?_, ?_, ?_, ?_⟩
  · cases tok with
    | none => simp [jsLooseEqTok]
    | some s =>
      simp only [jsLooseEqTok, beq_iff_eq, Option.some.injEq]
      exact ⟨fun h => h.symm, fun h => h.symm⟩
  · unfold handleStart startStream
    split_ifs <;> rfl
  · unfold handleKeepAlive
    split_ifs <;> rfl
  · unfold handleChat
    split_ifs <;> rfl
  · unfold reaperSweep at hreap
    exact reaperLoop_clients now maxKA st.streams st [] st2 infos hreap
  · intro c hc
    unfold handleStartV2 at hc
    split_ifs at hc with h1 h2
    · rw [hcl] at hc
      injection hc with hc
      subst hc
      rfl
    · rw [hcl] at hc
      injection hc with hc
      subst hc
      rfl
    · have hhost : client.host = true := by
        revert h2
        cases client.host <;> simp
      have hc' : (mapSet wsId { client with host := true }
          (startStream stream st).websocketClients).lookup wsId = some c := hc
      rw [lookup_mapSet_self] at hc'
      injection hc' with hc'
      subst hc'
      rw [hhost]

/-- C3 witness: the theorem applied on the sample state with a matching
token, connection 1 holding `sampleClient`, and the concrete reaper result
at time 200 (no session expired, one viewer snapshot published). -/
theorem host_flag_fixed_witness :
    (jsLooseEqTok "tok1" (some "tok1") = true ↔
        (some "tok1" : Option String) = some "tok1")
    ∧ (handleStart 200 (some "start") sampleClient sampleStream
        sampleState).1.websocketClients = sampleState.websocketClients :=
  ⟨(host_flag_fixed "tok1" (some "tok1") 200 (some "start") (some "hi")
      sampleClient sampleStream sampleState 3600000 sampleState
      [{ stream := "s1", state := .stopped, viewers := 1 }] 1
      rfl rfl).1,
   (host_flag_fixed "tok1" (some "tok1") 200 (some "start") (some "hi")
      sampleClient sampleStream sampleState 3600000 sampleState
      [{ stream := "s1", state := .stopped, viewers := 1 }] 1
      rfl rfl).2.1⟩

/-- A session whose keep-alive (0) is far older than the default one-hour
threshold at sweep time 3600001, with a live process and one subscribed
viewer. -/
def expiredStream : Stream :=
  { sampleStream with state := .started, keepAlive := 0, timestamp := 0 }

/-- Server state holding only the expired session. -/
def expiredState : ServerState :=
  { streams := [("s1", expiredStream)],
    ffmpegProcesses := [("s1", { pid := 7, killed := false })],
    websocketClients := [(1, sampleClient)],
    fsDirs := ["streams/s1"],
    nextPid := 8,
    killedPids := [] }

/-- C1 (code bug): at a sweep over an expired session, the reaper passes
`global.ffmpegProcesses.get(id)` — the process object, not the id string —
to `killStream`, so neither lookup keyed by that value matches: the registry
entry survives (`has` on the id still reports found), the process is neither
killed nor deregistered, and only the working directory is deleted, contrary
to the claimed full teardown. -/
theorem reaper_expired_session_not_removed :
    reaperSweep 3600001 3600000 expiredState
      = .ok ({ expiredState with fsDirs := [] },
             [{ stream := "s1", state := .started, viewers := 1 }])
    ∧ mapHas "s1" ({ expiredState with fsDirs := [] } : ServerState).streams = true
    ∧ mapHas "s1" ({ expiredState with fsDirs := [] } : ServerState).ffmpegProcesses
        = true
    ∧ ({ expiredState with fsDirs := [] } : ServerState).killedPids = [] :=
  ⟨rfl, rfl, rfl, rfl⟩

/-- C4 (code bug): on an unparseable frame the `catch` block evaluates
`data.type` although `data` was never assigned (the `JSON.parse` threw), so
the handler raises a TypeError and no response is sent at all, instead of a
failure response echoing the message type. -/
theorem malformed_json_no_response :
    wsMessage (fun _ => false) (fun _ => false) 0 none 1 "1.2.3.4" .malformed
        sampleState
      = .error .typeErrorUndefined := rfl

/-- Server state with no process and no registry entry for any id. -/
def emptyState : ServerState :=
  { streams := [], ffmpegProcesses := [], websocketClients := [],
    fsDirs := ["streams/other"], nextPid := 0, killedPids := [] }

/-- C8 (code bug): `killStream(id)` for an id with no process handle, no
registry entry and no supplied path is not a no-op: the un-awaited
`exists(streamPath)` Promise is truthy, so `rmdir` is called with the still-
`null` path and raises `ERR_INVALID_ARG_TYPE` instead of completing. -/
theorem killStream_unknown_id_raises :
    killStream (.str "nosuchid") none emptyState = .error .invalidArgType := rfl

end VidStream
